import Mathlib

/-!
Shallow embedding of the `ScriptCreate.handle` workflow of audiolab-api
(src/endpoints/scripts/scriptCreate.ts) together with the two stores it
talks to.

The handler, after PDF text extraction (an external collaborator, out of
scope of the claims), does:
  1. builds `fullScriptContent`, starting from a fixed `<speak ...>` opening
     tag, appending a narrator introduction (skipped when the model call
     throws), then up to `MAX_TURNS = 10` persona dialogue turns chosen
     round-robin from `personas`, breaking on the first empty response,
     and finally appending `</speak>`;
  2. computes the object key
     `generated/${Date.now()}-${name.replace(/\s+/g, "-")}.ssml`
     and writes the script to the R2 bucket under it — a thrown put is
     turned into an ApiException("Failed to store generated script in R2.", 500);
  3. inserts `(name, key, JSON.stringify(personas))` into the D1 table
     `scripts` with RETURNING, and on success returns status 201 with the
     materialized row; on insert failure it attempts a compensating
     `R2_BUCKET.delete(key)` (a failure of which is only console.error-logged)
     and throws ApiException("Failed to save script metadata to the database.", 500).

External effects (model responses, Date.now(), DB-assigned timestamps, and
whether each store call succeeds) are parameters of the run, collected in
`Env`. Prompt text only influences the model's reply, so the conversation
history is absorbed into the reply oracle `personaResult : Nat → String`
(the value of `response.response || ''` for turn `i`; a thrown model call is
caught by the source and also yields `''`).
-/

namespace AudiolabApi

/-- JS `\s` for the purposes of `name.replace(/\s+/g, "-")`: ASCII whitespace
plus no-break space (the characters that can realistically occur in a name). -/
def isJsWhitespace (c : Char) : Bool :=
  c = ' ' || c = '\t' || c = '\n' || c = '\r' || c = '\x0b' || c = '\x0c' || c = ' '

/-- Character-list core of `replace(/\s+/g, "-")`: each maximal run of
whitespace becomes a single dash. The Boolean flag records whether the
previous character was part of a whitespace run (whose dash is already
emitted). -/
def collapseWsAux : Bool → List Char → List Char
  | _, [] => []
  | inRun, c :: cs =>
    if isJsWhitespace c then
      if inRun then collapseWsAux true cs else '-' :: collapseWsAux true cs
    else
      c :: collapseWsAux false cs

def collapseWs (l : List Char) : List Char := collapseWsAux false l

/-- Model of `name.replace(/\s+/g, "-")` from the key construction. -/
def sanitize (s : String) : String := ⟨collapseWs s.data⟩

/-- The R2 object key: `generated/${Date.now()}-${name.replace(/\s+/g, "-")}.ssml`. -/
def storageKey (now : Nat) (name : String) : String :=
  "generated/" ++ toString now ++ "-" ++ sanitize name ++ ".ssml"

/-- Minimal JSON escaping, for `JSON.stringify(personas)`. -/
def jsonEscape (s : String) : String :=
  ⟨s.data.foldr (fun c acc =>
      match c with
      | '\\' => '\\' :: '\\' :: acc
      | '"' => '\\' :: '"' :: acc
      | '\n' => '\\' :: 'n' :: acc
      | '\t' => '\\' :: 't' :: acc
      | '\r' => '\\' :: 'r' :: acc
      | c => c :: acc) []⟩

/-- Model of `JSON.stringify` of a string array, as used for the `personas` column. -/
def jsonStringify (xs : List String) : String :=
  "[" ++ String.intercalate "," (xs.map (fun s => "\"" ++ jsonEscape s ++ "\"")) ++ "]"

/-- The fixed opening wrapper the script starts from. -/
def speakOpenTag : String :=
  "<speak xmlns=\"http://www.w3.org/2001/10/synthesis\" xmlns:xsi=\"http://www.w3.org/2001/XMLSchema-instance\" xsi:schemaLocation=\"http://www.w3.org/WAI/TR/2018/wcag21/syn-speech-api#command\">"

/-- The constant `MAX_TURNS = 10` from the source. -/
def MAX_TURNS : Nat := 10

/-- External outcomes of one `handle` invocation. -/
structure Env where
  /-- Value `none`: the narrator `AI.run` threw (the source continues without intro);
  `some s`: the call returned and `s` is `narratorResponse.response || ''`. -/
  narratorResult : Option String
  /-- Value of `response.response || ''` for the persona model call made at loop index
  `i`; a thrown call is caught by `generatePersonaResponse` and gives `''`. -/
  personaResult : Nat → String
  /-- Value of `Date.now()` at key construction time. -/
  now : Nat
  /-- The `created_at` value the record store assigns on insert. -/
  dbNow : String
  /-- Whether `R2_BUCKET.put` completes without throwing. -/
  r2PutOk : Bool
  /-- Whether the D1 `INSERT ... RETURNING` completes without throwing. -/
  dbInsertOk : Bool
  /-- Whether the compensating `R2_BUCKET.delete` completes without throwing. -/
  r2DeleteOk : Bool

/-- The dialogue loop
`for (i = 0; i < MAX_TURNS; i++) { persona := personas[i % len]; d := resp(i); if (d) append else break }`:
returns the list of `(persona, dialogue)` turns actually appended together
with the `console.warn` messages emitted. First argument after the oracle is
the loop index `i`, second the number of iterations left. -/
def runDialogue (personas : List String) (resp : Nat → String) : Nat → Nat → List (String × String) × List String
  | _, 0 => ([], [])
  | i, rem + 1 =>
    let persona := personas.getD (i % personas.length) ""
    let d := resp i
    if d = "" then
      ([], ["Persona " ++ persona ++ " failed to generate a response. Ending conversation."])
    else
      let rest := runDialogue personas resp (i + 1) rem
      ((persona, d) :: rest.1, rest.2)

/-- The narrator introduction appended to the script (`''` contribution when
the model call threw). -/
def introText (e : Env) : String :=
  match e.narratorResult with
  | none => ""
  | some s => s

/-- Concatenation of the dialogue turns appended by the loop. -/
def dialogueText (e : Env) (personas : List String) : String :=
  String.join (((runDialogue personas e.personaResult 0 MAX_TURNS).1).map Prod.snd)

/-- The string `fullScriptContent` as handed to `R2_BUCKET.put`: opening tag, narrator
intro, dialogue turns, closing tag — in the order the source concatenates. -/
def fullScript (e : Env) (personas : List String) : String :=
  speakOpenTag ++ introText e ++ dialogueText e personas ++ "</speak>"

/-- The blob store (R2 bucket): an association of keys to byte payloads.
`put` overwrites an existing key, as R2's unconditional `put` does. -/
abbrev BlobStore := List (String × String)

def blobPut (st : BlobStore) (k v : String) : BlobStore :=
  (k, v) :: st.filter (fun p => !(p.1 == k))

def blobDelete (st : BlobStore) (k : String) : BlobStore :=
  st.filter (fun p => !(p.1 == k))

def blobLookup (st : BlobStore) (k : String) : Option String :=
  (st.find? (fun p => p.1 == k)).map Prod.snd

/-- A row of the `scripts` table, as returned by
`INSERT INTO scripts (name, r2_file_link, personas) VALUES (?, ?, ?) RETURNING id, name, r2_file_link, created_at, personas`. -/
structure ScriptRow where
  id : Nat
  name : String
  r2_file_link : String
  created_at : String
  personas : String
deriving Repr, DecidableEq

/-- The record store (D1 `scripts` table): its rows plus the next
store-assigned id. -/
structure RecordStore where
  rows : List ScriptRow
  nextId : Nat
deriving Repr, DecidableEq

/-- A successful `INSERT ... RETURNING`: appends the row and returns it
materialized with the store-assigned id and timestamp. -/
def insertReturning (db : RecordStore) (createdAt name key personasJson : String) : ScriptRow × RecordStore :=
  let row : ScriptRow := ⟨db.nextId, name, key, createdAt, personasJson⟩
  (row, ⟨db.rows ++ [row], db.nextId + 1⟩)

/-- An `ApiException(message, status)` surfaced to the caller. -/
structure ApiErr where
  message : String
  status : Nat
deriving Repr, DecidableEq

/-- The error thrown when `R2_BUCKET.put` fails. -/
def blobWriteFailed : ApiErr :=
  ⟨"Failed to store generated script in R2.", 500⟩

/-- The error thrown when the D1 insert fails (identical whether or not the
compensating delete succeeds). -/
def metadataWriteFailed : ApiErr :=
  ⟨"Failed to save script metadata to the database.", 500⟩

/-- Caller-visible result: the 201 body's `result` row, or the thrown error. -/
inductive HandleOutcome where
  | ok (record : ScriptRow)
  | err (e : ApiErr)
deriving Repr, DecidableEq

/-- The two stores the workflow writes to. -/
structure HandleState where
  blobs : BlobStore
  db : RecordStore
deriving Repr, DecidableEq

/-- One finished `handle` invocation: outcome, final store state, and the
`console.error` and `console.warn` lines emitted (debug `console.log` output of
prompts and raw responses is not modelled). -/
structure HandleResult where
  outcome : HandleOutcome
  state : HandleState
  log : List String
deriving Repr, DecidableEq

/-- The handler `ScriptCreate.handle` from script generation onwards (PDF extraction and
schema validation happen upstream and are external collaborators). Mirrors
the source's control flow: build script, put to R2 (throw `blobWriteFailed`
on failure), insert into D1 returning the row (201 on success), on insert
failure attempt the compensating delete — logging, not rethrowing, its
failure — and throw `metadataWriteFailed`. -/
def handle (st : HandleState) (e : Env) (name : String) (personas : List String) : HandleResult :=
  let script := fullScript e personas
  let genLog :=
    (match e.narratorResult with
     | none => ["Error generating narrator intro:"]
     | some _ => []) ++ (runDialogue personas e.personaResult 0 MAX_TURNS).2
  let key := storageKey e.now name
  if e.r2PutOk then
    let blobs1 := blobPut st.blobs key script
    if e.dbInsertOk then
      let ins := insertReturning st.db e.dbNow name key (jsonStringify personas)
      { outcome := .ok ins.1
        state := { blobs := blobs1, db := ins.2 }
        log := genLog }
    else if e.r2DeleteOk then
      { outcome := .err metadataWriteFailed
        state := { blobs := blobDelete blobs1 key, db := st.db }
        log := genLog ++ ["Error inserting into D1:"] }
    else
      { outcome := .err metadataWriteFailed
        state := { blobs := blobs1, db := st.db }
        log := genLog ++ ["Error inserting into D1:", "Error cleaning up orphaned R2 file:"] }
  else
    { outcome := .err blobWriteFailed
      state := st
      log := genLog ++ ["Error uploading to R2:"] }

/-! Helper lemmas about the two stores and the dialogue loop. -/

lemma blobLookup_put_self (st : BlobStore) (k v : String) :
    blobLookup (blobPut st k v) k = some v := by
  simp [blobLookup, blobPut, List.find?]

lemma blobLookup_delete_self (st : BlobStore) (k : String) :
    blobLookup (blobDelete st k) k = none := by
  simp only [blobLookup, blobDelete, Option.map_eq_none']
  rw [List.find?_eq_none]
  intro p hp
  have hmem := List.of_mem_filter hp
  simp at hmem
  simp [hmem]

lemma runDialogue_length_le (ps : List String) (resp : Nat → String) :
    ∀ (rem i : Nat), (runDialogue ps resp i rem).1.length ≤ rem := by
  intro rem
  induction rem with
  | zero => intro i; simp [runDialogue]
  | succ rem ih =>
    intro i
    by_cases h : resp i = ""
    · simp [runDialogue, h]
    · simpa [runDialogue, h] using Nat.succ_le_succ (ih (i + 1))

lemma runDialogue_turn (ps : List String) (resp : Nat → String) :
    ∀ (rem i j : Nat), j < (runDialogue ps resp i rem).1.length →
      (runDialogue ps resp i rem).1.getD j ("", "") =
        (ps.getD ((i + j) % ps.length) "", resp (i + j)) ∧ resp (i + j) ≠ "" := by
  intro rem
  induction rem with
  | zero => intro i j hj; simp [runDialogue] at hj
  | succ rem ih =>
    intro i j hj
    by_cases h : resp i = ""
    · simp [runDialogue, h] at hj
    · simp only [runDialogue, h, if_neg, not_false_iff] at hj ⊢
      cases j with
      | zero => exact ⟨by simp, by simpa using h⟩
      | succ j =>
        simp only [List.getD_cons_succ]
        simp only [List.length_cons, Nat.succ_lt_succ_iff] at hj
        have hidx : i + 1 + j = i + (j + 1) := by omega
        have := ih (i + 1) j hj
        rw [hidx] at this
        exact this

lemma runDialogue_stop (ps : List String) (resp : Nat → String) :
    ∀ (rem i : Nat), (runDialogue ps resp i rem).1.length < rem →
      resp (i + (runDialogue ps resp i rem).1.length) = "" := by
  intro rem
  induction rem with
  | zero => intro i h; exact absurd h (Nat.not_lt_zero _)
  | succ rem ih =>
    intro i h
    by_cases hr : resp i = ""
    · simp [runDialogue, hr]
    · simp only [runDialogue, hr, if_neg, not_false_iff] at h ⊢
      simp only [List.length_cons, Nat.succ_lt_succ_iff] at h
      have hidx : i + 1 + (runDialogue ps resp (i + 1) rem).1.length =
          i + ((runDialogue ps resp (i + 1) rem).1.length + 1) := by omega
      have := ih (i + 1) h
      rw [hidx] at this
      simpa using this

/-! Concrete fixtures used by witnesses and counterexamples. -/

/-- Empty stores; the record store will assign id 1 first (SQLite rowids
start at 1). -/
def st0 : HandleState := ⟨[], ⟨[], 1⟩⟩

/-- A concrete environment: narrator call throws, every persona response is
empty, `Date.now() = 7`, DB timestamp `"t1"`, with the given store outcomes. -/
def env0 (putOk insOk delOk : Bool) : Env :=
  ⟨none, fun _ => "", 7, "t1", putOk, insOk, delOk⟩

/-! The claims. -/

/-- C1: in every execution of the commit workflow, the record store either
gains no row (every failure path) or gains exactly the one returned row,
whose `storage_key` (`r2_file_link`) is the key of a blob that exists in the
blob store at the moment the record is created — the insert runs only after
the blob put succeeded, and nothing deletes the blob afterwards on the
success path. -/
theorem c1_record_only_after_blob_write (st : HandleState) (e : Env) (name : String)
    (ps : List String) :
    (handle st e name ps).state.db.rows = st.db.rows ∨
    ∃ row : ScriptRow,
      (handle st e name ps).outcome = .ok row ∧
      (handle st e name ps).state.db.rows = st.db.rows ++ [row] ∧
      row.r2_file_link = storageKey e.now name ∧
      blobLookup (handle st e name ps).state.blobs row.r2_file_link =
        some (fullScript e ps) := by
  cases hp : e.r2PutOk with
  | false => left; simp [handle, hp]
  | true =>
    cases hi : e.dbInsertOk with
    | false =>
      left
      cases hd : e.r2DeleteOk <;> simp [handle, hp, hi, hd]
    | true =>
      right
      refine ⟨⟨st.db.nextId, name, storageKey e.now name, e.dbNow, jsonStringify ps⟩,
        ?_, ?_, rfl, ?_⟩ <;>
        simp [handle, hp, hi, insertReturning, blobLookup_put_self]

/-- C2: when the blob put and the metadata insert both succeed, `handle`
returns 201 with a row whose `r2_file_link` is exactly the key passed to
`R2_BUCKET.put`, and the blob store afterwards maps that key to exactly the
artifact bytes (`fullScript`) that were given to the put. -/
theorem c2_happy_path (st : HandleState) (e : Env) (name : String) (ps : List String)
    (hput : e.r2PutOk = true) (hins : e.dbInsertOk = true) :
    (handle st e name ps).outcome =
      .ok ⟨st.db.nextId, name, storageKey e.now name, e.dbNow, jsonStringify ps⟩ ∧
    blobLookup (handle st e name ps).state.blobs (storageKey e.now name) =
      some (fullScript e ps) := by
  constructor <;> simp [handle, hput, hins, insertReturning, blobLookup_put_self]

/-- Witness for C2 at a concrete run. -/
theorem c2_happy_path_witness :
    (handle st0 (env0 true true true) "a" ["p"]).outcome =
      .ok ⟨1, "a", storageKey 7 "a", "t1", jsonStringify ["p"]⟩ ∧
    blobLookup (handle st0 (env0 true true true) "a" ["p"]).state.blobs
        (storageKey 7 "a") =
      some (fullScript (env0 true true true) ["p"]) :=
  c2_happy_path st0 (env0 true true true) "a" ["p"] rfl rfl

/-- C3: when the blob put succeeds, the metadata insert fails and the
compensating delete succeeds, `handle` signals `metadataWriteFailed` and the
blob store has no entry under the key afterwards. -/
theorem c3_metadata_failure_compensated (st : HandleState) (e : Env) (name : String)
    (ps : List String) (hput : e.r2PutOk = true) (hins : e.dbInsertOk = false)
    (hdel : e.r2DeleteOk = true) :
    (handle st e name ps).outcome = .err metadataWriteFailed ∧
    blobLookup (handle st e name ps).state.blobs (storageKey e.now name) = none := by
  constructor <;> simp [handle, hput, hins, hdel, blobLookup_delete_self]

/-- Witness for C3 at a concrete run. -/
theorem c3_metadata_failure_compensated_witness :
    (handle st0 (env0 true false true) "a" ["p"]).outcome = .err metadataWriteFailed ∧
    blobLookup (handle st0 (env0 true false true) "a" ["p"]).state.blobs
        (storageKey 7 "a") = none :=
  c3_metadata_failure_compensated st0 (env0 true false true) "a" ["p"] rfl rfl rfl

/-- C4 counterexample: with the insert and the compensating delete both
failing, the caller-visible outcome is the plain `metadataWriteFailed`
`ApiException` — byte-identical to the outcome of the run where the delete
succeeds — so no `CompensationFailed` condition is attached to the result;
the delete failure is only a `console.error` log line. The blob does remain
present (orphan). -/
theorem c4_counterexample :
    (handle st0 (env0 true false false) "a" ["p"]).outcome = .err metadataWriteFailed ∧
    (handle st0 (env0 true false false) "a" ["p"]).outcome =
      (handle st0 (env0 true false true) "a" ["p"]).outcome ∧
    blobLookup (handle st0 (env0 true false false) "a" ["p"]).state.blobs
        (storageKey 7 "a") =
      some (fullScript (env0 true false false) ["p"]) ∧
    "Error cleaning up orphaned R2 file:" ∈ (handle st0 (env0 true false false) "a" ["p"]).log :=
  ⟨rfl, rfl, rfl, by decide⟩

/-- C4 amended: when the metadata insert and the compensating delete both
fail, `handle` still returns the `metadataWriteFailed` error and the blob
remains present under the key; but the compensation failure is only logged
(`console.error`), not attached to the caller-visible result — the outcome
is the same as that of any run in which the delete succeeds. -/
theorem c4_amended_compensation_failure_only_logged (st : HandleState) (e e2 : Env)
    (name : String) (ps : List String)
    (hput : e.r2PutOk = true) (hins : e.dbInsertOk = false) (hdel : e.r2DeleteOk = false)
    (h2put : e2.r2PutOk = true) (h2ins : e2.dbInsertOk = false) (h2del : e2.r2DeleteOk = true) :
    (handle st e name ps).outcome = .err metadataWriteFailed ∧
    blobLookup (handle st e name ps).state.blobs (storageKey e.now name) =
      some (fullScript e ps) ∧
    "Error cleaning up orphaned R2 file:" ∈ (handle st e name ps).log ∧
    (handle st e name ps).outcome = (handle st e2 name ps).outcome := by
  refine ⟨?_, ?_, ?_, ?_⟩ <;>
    simp [handle, hput, hins, hdel, h2put, h2ins, h2del, blobLookup_put_self]

/-- Witness for the amended C4 at a concrete run. -/
theorem c4_amended_witness :
    (handle st0 (env0 true false false) "b" ["p"]).outcome = .err metadataWriteFailed ∧
    blobLookup (handle st0 (env0 true false false) "b" ["p"]).state.blobs
        (storageKey 7 "b") =
      some (fullScript (env0 true false false) ["p"]) ∧
    "Error cleaning up orphaned R2 file:" ∈ (handle st0 (env0 true false false) "b" ["p"]).log ∧
    (handle st0 (env0 true false false) "b" ["p"]).outcome =
      (handle st0 (env0 true false true) "b" ["p"]).outcome :=
  c4_amended_compensation_failure_only_logged st0 (env0 true false false)
    (env0 true false true) "b" ["p"] rfl rfl rfl rfl rfl rfl

/-- C5 counterexample: after a first successful commit, a second `handle`
call that derives the identical storage key (same `Date.now()` and name)
does not fail at the blob-write step — the unconditional R2 `put` overwrites
and the second call succeeds with a second row. -/
theorem c5_counterexample :
    (handle (handle st0 (env0 true true true) "a" ["p"]).state
        (env0 true true true) "a" ["p"]).outcome ≠ .err blobWriteFailed ∧
    (handle (handle st0 (env0 true true true) "a" ["p"]).state
        (env0 true true true) "a" ["p"]).outcome =
      .ok ⟨2, "a", storageKey 7 "a", "t1", jsonStringify ["p"]⟩ := by
  exact ⟨by decide, rfl⟩

/-- C5 amended: a second commit deriving the identical storage key after a
first success does not fail — there is no key-collision check and the R2 put
overwrites. Both calls succeed: the table ends with both rows (the first row
untouched), and the blob under the shared key holds the second call's bytes
(the first call's blob bytes are overwritten, not left untouched). -/
theorem c5_amended_key_reuse_overwrites (st : HandleState) (e1 e2 : Env)
    (name : String) (ps1 ps2 : List String)
    (h1p : e1.r2PutOk = true) (h1i : e1.dbInsertOk = true)
    (h2p : e2.r2PutOk = true) (h2i : e2.dbInsertOk = true)
    (hnow : e2.now = e1.now) :
    (handle (handle st e1 name ps1).state e2 name ps2).outcome =
      .ok ⟨st.db.nextId + 1, name, storageKey e1.now name, e2.dbNow, jsonStringify ps2⟩ ∧
    (handle (handle st e1 name ps1).state e2 name ps2).state.db.rows =
      st.db.rows ++
        [⟨st.db.nextId, name, storageKey e1.now name, e1.dbNow, jsonStringify ps1⟩,
         ⟨st.db.nextId + 1, name, storageKey e1.now name, e2.dbNow, jsonStringify ps2⟩] ∧
    blobLookup (handle (handle st e1 name ps1).state e2 name ps2).state.blobs
        (storageKey e1.now name) = some (fullScript e2 ps2) := by
  refine ⟨?_, ?_, ?_⟩ <;>
    simp [handle, h1p, h1i, h2p, h2i, hnow, insertReturning, blobLookup_put_self]

/-- Witness for the amended C5 at a concrete pair of runs. -/
theorem c5_amended_witness :
    (handle (handle st0 (env0 true true true) "c" ["p"]).state
        (env0 true true true) "c" ["q"]).outcome =
      .ok ⟨2, "c", storageKey 7 "c", "t1", jsonStringify ["q"]⟩ ∧
    (handle (handle st0 (env0 true true true) "c" ["p"]).state
        (env0 true true true) "c" ["q"]).state.db.rows =
      [⟨1, "c", storageKey 7 "c", "t1", jsonStringify ["p"]⟩,
       ⟨2, "c", storageKey 7 "c", "t1", jsonStringify ["q"]⟩] ∧
    blobLookup (handle (handle st0 (env0 true true true) "c" ["p"]).state
        (env0 true true true) "c" ["q"]).state.blobs
      (storageKey 7 "c") = some (fullScript (env0 true true true) ["q"]) :=
  c5_amended_key_reuse_overwrites st0 (env0 true true true) (env0 true true true)
    "c" ["p"] ["q"] rfl rfl rfl rfl rfl

/-- C6 counterexample: for name `"a"` and timestamp `7` the key the handler
actually uses is `generated/7-a.ssml` — with the timestamp before the name
and a fixed prefix and extension — not `sanitize(name) ++ "-" ++ timestamp`
(which would be `a-7`). -/
theorem c6_counterexample :
    (handle st0 (env0 true true true) "a" ["p"]).outcome =
      .ok ⟨1, "a", "generated/7-a.ssml", "t1", jsonStringify ["p"]⟩ ∧
    "generated/7-a.ssml" ≠ sanitize "a" ++ "-" ++ toString 7 := by
  exact ⟨by decide, by decide⟩

/-- C6 amended: the storage key is derived deterministically from the name
and the creation timestamp, but as
`"generated/" ++ timestamp ++ "-" ++ sanitize(name) ++ ".ssml"` — the
timestamp comes first, a fixed directory prefix and `.ssml` extension are
added, and `sanitize` replaces each whitespace run in the name with a dash. -/
theorem c6_amended_key_derivation (st : HandleState) (e : Env) (name : String)
    (ps : List String) (hput : e.r2PutOk = true) (hins : e.dbInsertOk = true) :
    (handle st e name ps).outcome =
      .ok ⟨st.db.nextId, name,
           "generated/" ++ toString e.now ++ "-" ++ sanitize name ++ ".ssml",
           e.dbNow, jsonStringify ps⟩ := by
  simp [handle, hput, hins, insertReturning, storageKey]

/-- Witness for the amended C6 at a concrete run, with a name containing
whitespace. -/
theorem c6_amended_witness :
    (handle st0 (env0 true true true) "a b" ["p"]).outcome =
      .ok ⟨1, "a b", "generated/" ++ toString 7 ++ "-" ++ sanitize "a b" ++ ".ssml",
           "t1", jsonStringify ["p"]⟩ :=
  c6_amended_key_derivation st0 (env0 true true true) "a b" ["p"] rfl rfl

/-- C7: when the blob put fails on a fresh key, `handle` signals
`blobWriteFailed`, the stores are exactly as before the call — so no insert
reached the record store and no compensating delete was issued — and the
blob store has no entry under the key afterwards. -/
theorem c7_blob_write_failure_leaves_nothing (st : HandleState) (e : Env) (name : String)
    (ps : List String) (hput : e.r2PutOk = false)
    (hfresh : blobLookup st.blobs (storageKey e.now name) = none) :
    (handle st e name ps).outcome = .err blobWriteFailed ∧
    (handle st e name ps).state = st ∧
    blobLookup (handle st e name ps).state.blobs (storageKey e.now name) = none := by
  refine ⟨?_, ?_, ?_⟩ <;> simp [handle, hput, hfresh]

/-- Witness for C7 at a concrete run. -/
theorem c7_blob_write_failure_witness :
    (handle st0 (env0 false true true) "a" ["p"]).outcome = .err blobWriteFailed ∧
    (handle st0 (env0 false true true) "a" ["p"]).state = st0 ∧
    blobLookup (handle st0 (env0 false true true) "a" ["p"]).state.blobs
        (storageKey 7 "a") = none :=
  c7_blob_write_failure_leaves_nothing st0 (env0 false true true) "a" ["p"] rfl rfl

/-- C8: on every failure path of `handle` (erroneous outcome), the record
store is unchanged — no row attributable to the failed call exists — and no
`ScriptRecord` is returned; the outcome type makes the result exactly one of
a fully materialized row or an error. -/
theorem c8_failure_returns_no_record (st : HandleState) (e : Env) (name : String)
    (ps : List String) (er : ApiErr)
    (h : (handle st e name ps).outcome = .err er) :
    (handle st e name ps).state.db = st.db ∧
    ∀ row : ScriptRow, (handle st e name ps).outcome ≠ .ok row := by
  constructor
  · cases hp : e.r2PutOk with
    | false => simp [handle, hp]
    | true =>
      cases hi : e.dbInsertOk with
      | false => cases hd : e.r2DeleteOk <;> simp [handle, hp, hi, hd]
      | true => simp [handle, hp, hi] at h
  · intro row hrow
    rw [h] at hrow
    exact HandleOutcome.noConfusion hrow

/-- Witness for C8 at a concrete failing run. -/
theorem c8_failure_returns_no_record_witness :
    (handle st0 (env0 false true true) "d" ["p"]).state.db = st0.db ∧
    ∀ row : ScriptRow, (handle st0 (env0 false true true) "d" ["p"]).outcome ≠ .ok row :=
  c8_failure_returns_no_record st0 (env0 false true true) "d" ["p"] blobWriteFailed rfl

/-- C9: the dialogue loop appends at most `MAX_TURNS = 10` turns; the turn
appended at index `j` uses the round-robin persona `personas[j % length]`
and a non-empty model response; if the loop stopped before `MAX_TURNS`,
the very next response was empty (the first failure ends the conversation);
and the workflow nevertheless proceeds to store the partial script and —
when the two store writes succeed — returns the full 201 success with the
partial script in the blob store. No error reaches the caller from the
generation loop. -/
theorem c9_dialogue_loop_truncates_silently (st : HandleState) (e : Env) (name : String)
    (ps : List String) (hput : e.r2PutOk = true) (hins : e.dbInsertOk = true) :
    (runDialogue ps e.personaResult 0 MAX_TURNS).1.length ≤ MAX_TURNS ∧
    (∀ j, j < (runDialogue ps e.personaResult 0 MAX_TURNS).1.length →
      (runDialogue ps e.personaResult 0 MAX_TURNS).1.getD j ("", "") =
        (ps.getD (j % ps.length) "", e.personaResult j) ∧ e.personaResult j ≠ "") ∧
    ((runDialogue ps e.personaResult 0 MAX_TURNS).1.length < MAX_TURNS →
      e.personaResult ((runDialogue ps e.personaResult 0 MAX_TURNS).1.length) = "") ∧
    (handle st e name ps).outcome =
      .ok ⟨st.db.nextId, name, storageKey e.now name, e.dbNow, jsonStringify ps⟩ ∧
    blobLookup (handle st e name ps).state.blobs (storageKey e.now name) =
      some (fullScript e ps) := by
  refine ⟨runDialogue_length_le ps e.personaResult MAX_TURNS 0, ?_, ?_, ?_, ?_⟩
  · intro j hj
    have := runDialogue_turn ps e.personaResult MAX_TURNS 0 j hj
    simpa using this
  · intro hlt
    have := runDialogue_stop ps e.personaResult MAX_TURNS 0 hlt
    simpa using this
  · simp [handle, hput, hins, insertReturning]
  · simp [handle, hput, hins, blobLookup_put_self]

/-- Witness for C9 at a concrete run (every persona response empty: the loop
stops at turn 0 and the run still succeeds). -/
theorem c9_dialogue_loop_witness :
    (runDialogue ["p"] (env0 true true true).personaResult 0 MAX_TURNS).1.length ≤ MAX_TURNS ∧
    (∀ j, j < (runDialogue ["p"] (env0 true true true).personaResult 0 MAX_TURNS).1.length →
      (runDialogue ["p"] (env0 true true true).personaResult 0 MAX_TURNS).1.getD j ("", "") =
        (["p"].getD (j % (["p"] : List String).length) "",
          (env0 true true true).personaResult j) ∧
        (env0 true true true).personaResult j ≠ "") ∧
    ((runDialogue ["p"] (env0 true true true).personaResult 0 MAX_TURNS).1.length < MAX_TURNS →
      (env0 true true true).personaResult
        ((runDialogue ["p"] (env0 true true true).personaResult 0 MAX_TURNS).1.length) = "") ∧
    (handle st0 (env0 true true true) "e" ["p"]).outcome =
      .ok ⟨1, "e", storageKey 7 "e", "t1", jsonStringify ["p"]⟩ ∧
    blobLookup (handle st0 (env0 true true true) "e" ["p"]).state.blobs
        (storageKey 7 "e") = some (fullScript (env0 true true true) ["p"]) :=
  c9_dialogue_loop_truncates_silently st0 (env0 true true true) "e" ["p"] rfl rfl

/-- C10: for every combination of model-call outcomes — the narrator call
throwing or returning anything, every persona turn failing or succeeding —
the artifact string handed to the blob put is the fixed `<speak ...>` opening
wrapper, then some middle content, then the closing `</speak>` tag: the
stored script is never missing its markup envelope. -/
theorem c10_script_always_wrapped (e : Env) (ps : List String) :
    ∃ mid : String, fullScript e ps = speakOpenTag ++ mid ++ "</speak>" :=
  ⟨introText e ++ dialogueText e ps, by simp [fullScript, String.append_assoc]⟩

end AudiolabApi
